import Mathlib

set_option maxHeartbeats 1000000
set_option linter.unusedVariables false

/-!
Shallow embedding of the L2 coaching application.

Client side (`src/client/src/pages/dashboard.tsx`, `src/client/src/lib/mock-scenarios.ts`):
the conversation engine is the set of React event handlers; React state updates
(`setX`) are modelled as sequential assignments to an explicit `EngineState`
record, `Date.now()` / `new Date()` as a monotone `clock : Nat`, and a
`setTimeout` callback registration as appending to a FIFO `pending` queue
(JavaScript timers with the same fixed delay fire in registration order).

Server side (`src/server/storage.ts`, the routes file with the `/api/analyze`
endpoint, and the drizzle schema): the database is an explicit `Db` record;
the cascade foreign key of the schema is modelled by `deleteSession`
removing the referencing messages and by `createMessage` failing when the
referenced session does not exist.  SQL `ORDER BY timestamp` carries no
secondary sort key, so postgres guarantees only a timestamp-sorted
permutation of the selected rows (the contract `ordByTs`), leaving the order
of equal timestamps unspecified; the executable `getMessagesBySession`
returns one admissible such result.
-/

namespace L2

/-! ## Scenario catalog (src/client/src/lib/mock-scenarios.ts) -/

structure Scenario where
  id : String
  title : String
  description : String
  imagePrompt : String
  tldrResponse : String
  fullResponse : String
  deriving DecidableEq

def bullFlagScenario : Scenario :=
  { id := "bull_flag"
    title := "Bull Flag Breakout"
    description := "Price consolidating at VWAP with lighter volume, bids stacking up."
    imagePrompt := "Level 2 market data showing bullish consolidation. Price consolidating near VWAP. Green bids stacking at 42.50. Ask side thinning out. Time and sales showing green prints."
    tldrResponse := "> TL;DR ANALYSIS\nSTATUS: BUYERS IN CONTROL\nMOMENTUM: Coiling at VWAP\nINFLECTION: 152.50 (Ask Wall Eroding)\nNEXT 30s: Breakout thru .50 likely\nACTION: LONG BIAS - Lift the offer on volume spike"
    fullResponse := "> FULL TAPE REVIEW\n----------------------------------------\n1. STRUCTURE\n- Classic bull flag consolidation above VWAP\n- Bids holding firm at 152.40, stepping up\n- Ask wall at 152.50 is being chipped away (refreshing slowed)\n\n2. ORDER FLOW\n- T&S shows consistent green prints (lifts)\n- Hidden buyer likely at 152.45 (iceberg)\n- Sellers are passive, not reloading\n\n3. SCENARIO\n- Continuation play imminent\n- If 152.50 clears, vacuum to 152.80\n- Watch for volume surge on the break\n\n> ACTIONABLE SETUP\nLong 152.50 break. Stop 152.35. Target 152.80." }

def bearTrapScenario : Scenario :=
  { id := "bear_trap"
    title := "Bear Trap / Reclaim"
    description := "Price dipped below support but immediately stuffed and reclaimed."
    imagePrompt := "Level 2 market data showing a bear trap. Price dipping below support line but green bids appearing aggressively. Time and sales showing rapid buying."
    tldrResponse := "> TL;DR ANALYSIS\nSTATUS: BUYERS RECLAIMING\nMOMENTUM: Reversal (V-Shape)\nINFLECTION: 88.00 (Psychological Support)\nNEXT 30s: Squeeze to 88.40\nACTION: LONG BIAS - Chase the reclaim, shorts are trapped"
    fullResponse := "> FULL TAPE REVIEW\n----------------------------------------\n1. STRUCTURE\n- Failed breakdown below 88.00\n- Aggressive bid whack at 87.90 (absorption)\n- Sellers exhausted, asks lifting fast\n\n2. ORDER FLOW\n- Rapid green prints on T&S (panic covers)\n- 88.00 offer flipped to bid instantly\n- Speed of tape increased 3x on the reversal\n\n3. SCENARIO\n- Short squeeze in progress\n- Trapped shorts from 87.90 break need to cover\n- Expect fast move to VWAP\n\n> ACTIONABLE SETUP\nLong now (88.05). Stop 87.90. Target 88.50." }

def distributionScenario : Scenario :=
  { id := "distribution"
    title := "Top Distribution"
    description := "Heavy volume at highs but price stalling. Hidden sellers."
    imagePrompt := "Level 2 market data showing distribution. High volume bars but price flatlining at top. Red asks refreshing constantly. Time and sales mixed."
    tldrResponse := "> TL;DR ANALYSIS\nSTATUS: SELLERS IN CONTROL (HIDDEN)\nMOMENTUM: Stalling / Churning\nINFLECTION: 210.50 (Ceiling)\nNEXT 30s: Rollover to 210.20\nACTION: CAUTION / SHORT - Do not buy the breakout"
    fullResponse := "> FULL TAPE REVIEW\n----------------------------------------\n1. STRUCTURE\n- Double top formation on L2\n- 210.50 offer keeps reloading (iceberg seller)\n- Buyers lifting but price not moving (churn)\n\n2. ORDER FLOW\n- Heavy green prints but zero price appreciation\n- Absorption by smart money on the ask\n- Bids are thinning out below\n\n3. SCENARIO\n- Classic distribution before the dump\n- Buyers are being exhausted\n- Once 210.40 bid pulls, flush is instant\n\n> ACTIONABLE SETUP\nShort 210.35 break. Stop 210.55. Target 209.80." }

def choppyScenario : Scenario :=
  { id := "choppy"
    title := "Mid-Day Chop"
    description := "Low volume, spread widening, no clear direction."
    imagePrompt := "Level 2 market data showing choppy market. Wide spread between bid and ask. Low volume. Mixed colors on time and sales. Boring market."
    tldrResponse := "> TL;DR ANALYSIS\nSTATUS: NEUTRAL / NO CONTROL\nMOMENTUM: Dead / Choppy\nINFLECTION: None valid\nNEXT 30s: Rangebound 45.20-45.40\nACTION: WAIT - No edge here. Sit on hands."
    fullResponse := "> FULL TAPE REVIEW\n----------------------------------------\n1. STRUCTURE\n- Wide spread (10c+)\n- Thin liquidity on both sides\n- No clear walls or stepping\n\n2. ORDER FLOW\n- T&S is slow, single lot prints\n- Algo ping-pong between spread\n- No aggression from either side\n\n3. SCENARIO\n- Theta burn / Chop fest\n- Any move likely false breakout/breakdown\n- Wait for volume or distinct level interaction\n\n> ACTIONABLE SETUP\nNone. Preservation of capital mode." }

def SCENARIOS : List Scenario :=
  [bullFlagScenario, bearTrapScenario, distributionScenario, choppyScenario]

/-! ## Client message / session records (dashboard.tsx interfaces) -/

inductive Role
  | user
  | coach
  deriving DecidableEq

inductive MsgType
  | text
  | image
  | analysis
  deriving DecidableEq

inductive Mode
  | tldr
  | full
  deriving DecidableEq

structure Message where
  id : String
  role : Role
  content : String
  type : MsgType
  imageUrl : Option String := none
  timestamp : Nat
  mode : Option Mode := none
  scenarioId : Option String := none
  deriving DecidableEq

structure SessionE where
  id : String
  title : String
  createdAt : Nat
  messages : List Message
  deriving DecidableEq

/-- A registered `setTimeout` callback of `processCoachResponse`: the closure
captures the user message, the optional scenario and the value of
`isFullReview` at scheduling time. -/
structure PendingReply where
  userMsg : Message
  scenario : Option Scenario
  modeFull : Bool
  deriving DecidableEq

structure EngineState where
  sessions : List SessionE
  currentSessionId : String
  messages : List Message
  input : String
  isFullReview : Bool
  isTyping : Bool
  uploadedImage : Option String
  pending : List PendingReply
  clock : Nat
  deriving DecidableEq

/-! ## Keyword matcher (dashboard.tsx, generateGenericResponse) -/

/-- Tests whether `needle` is a leading segment of `hay` (character-exact). -/
def charListStartsWith : List Char → List Char → Bool
  | _, [] => true
  | [], _ :: _ => false
  | a :: as, b :: bs => a == b && charListStartsWith as bs

/-- Tests whether `needle` occurs somewhere inside `hay`; models JavaScript
`String.prototype.includes`. -/
def charListHas : List Char → List Char → Bool
  | [], needle => charListStartsWith [] needle
  | c :: rest, needle => charListStartsWith (c :: rest) needle || charListHas rest needle

def strIncludes (s sub : String) : Bool :=
  charListHas s.data sub.data

/-- Models JavaScript `String.prototype.toLowerCase` (ASCII-faithful). -/
def strToLower (s : String) : String :=
  String.mk (s.data.map Char.toLower)

def dropWsLeft : List Char → List Char
  | [] => []
  | c :: rest => if c.isWhitespace then dropWsLeft rest else c :: rest

/-- Models JavaScript `String.prototype.trim`: strips whitespace from both
ends. -/
def strTrim (s : String) : String :=
  String.mk (dropWsLeft (dropWsLeft s.data.reverse).reverse)

def buyerLongTemplate : String :=
  "> COACH READ\nBuyers are weak here. Don\x27t chase.\nI see heavy offers stacking at the half-dollar. \nWait for the reclaim of the level before lifting."

def sellerShortTemplate : String :=
  "> COACH READ\nSellers are aggressive on the tape.\nBids are stepping down.\nLook for the flush below the round number."

def patienceTemplate : String :=
  "> COACH READ\nGood discipline.\nThe tape is choppy right now. \nPreserve your capital for the A+ setup."

def fallbackTemplate : String :=
  "> COACH READ\nUnderstood. Keep your eyes on the T&S. \nSpeed is increasing.\nWatch for the stuff move at the high of day."

/-- dashboard.tsx `generateGenericResponse(msg, fullMode)`: ordered
keyword-trigger rules over the lower-cased content; `fullMode` is never read. -/
def generateGenericResponse (msg : Message) (fullMode : Bool) : String :=
  let lowerContent := strToLower msg.content
  if strIncludes lowerContent ("buyer") || strIncludes lowerContent ("long") then
    buyerLongTemplate
  else if strIncludes lowerContent ("seller") || strIncludes lowerContent ("short") then
    sellerShortTemplate
  else if strIncludes lowerContent ("wait") || strIncludes lowerContent ("patience") then
    patienceTemplate
  else
    fallbackTemplate

/-! ## Conversation engine transitions (dashboard.tsx handlers) -/

def l2Placeholder : String :=
  "@assets/generated_images/level_2_market_data_simulation.png"

/-- dashboard.tsx `createNewSession`: prepends a fresh session with a welcome
message and makes it current.  The locale-rendered title timestamp is
abstracted to the clock value. -/
def createNewSession (s : EngineState) : EngineState :=
  let welcome : Message :=
    { id := "welcome"
      role := Role.coach
      content := "L2 COACH ONLINE. SYSTEM READY.\nUpload your L2/NBBO screenshot or select a scenario."
      type := MsgType.text
      timestamp := s.clock }
  let newSession : SessionE :=
    { id := toString s.clock
      title := "Session " ++ toString s.clock
      createdAt := s.clock
      messages := [welcome] }
  { s with sessions := newSession :: s.sessions
           currentSessionId := newSession.id
           messages := newSession.messages
           uploadedImage := none
           clock := s.clock + 1 }

/-- dashboard.tsx `switchSession`. -/
def switchSession (s : EngineState) (sessionId : String) : EngineState :=
  match s.sessions.find? (fun ss => ss.id == sessionId) with
  | some ss =>
      { s with currentSessionId := sessionId
               messages := ss.messages
               uploadedImage := none }
  | none => s

/-- dashboard.tsx `deleteSession`. -/
def deleteSession (s : EngineState) (sessionId : String) : EngineState :=
  let updated := s.sessions.filter (fun ss => ss.id != sessionId)
  let s1 := { s with sessions := updated }
  if s.currentSessionId = sessionId then
    match updated with
    | [] => createNewSession s1
    | first :: _ => switchSession s1 first.id
  else s1

/-- dashboard.tsx `processCoachResponse`: sets the typing flag and registers a
delayed callback; modelled as appending to the FIFO `pending` queue.  The
closure captures `isFullReview` at scheduling time. -/
def processCoachResponse (s : EngineState) (userMsg : Message) (scenario : Option Scenario) :
    EngineState :=
  { s with isTyping := true
           pending := s.pending ++ [{ userMsg := userMsg, scenario := scenario, modeFull := s.isFullReview }] }

/-- The user message built by `handleSend`. -/
def userMsgOfSend (s : EngineState) : Message :=
  { id := toString s.clock
    role := Role.user
    content := s.input
    type := MsgType.text
    timestamp := s.clock }

/-- dashboard.tsx `handleSend`: rejects blank input, otherwise appends the
user message, clears the input box and schedules the coach reply. -/
def handleSend (s : EngineState) : EngineState :=
  if strTrim s.input = "" then s
  else
    let userMsg := userMsgOfSend s
    let s1 := { s with messages := s.messages ++ [userMsg], input := "", clock := s.clock + 1 }
    processCoachResponse s1 userMsg none

/-- The user message built by `handleFileUpload`. -/
def userMsgOfUpload (s : EngineState) (filename imageData : String) : Message :=
  { id := toString s.clock
    role := Role.user
    content := "Analyzing screenshot: " ++ filename ++ "..."
    type := MsgType.image
    imageUrl := some imageData
    timestamp := s.clock }

/-- dashboard.tsx `handleFileUpload` (after the FileReader produced
`imageData` for the chosen file). -/
def handleFileUpload (s : EngineState) (filename imageData : String) : EngineState :=
  let userMsg := userMsgOfUpload s filename imageData
  let s1 := { s with uploadedImage := some imageData
                     messages := s.messages ++ [userMsg]
                     clock := s.clock + 1 }
  processCoachResponse s1 userMsg none

/-- The synthetic user message built by `handleSimulateScenario`. -/
def userMsgOfScenario (s : EngineState) (scenario : Scenario) : Message :=
  { id := toString s.clock
    role := Role.user
    content := "Analyzing setup: " ++ scenario.title ++ "..."
    type := MsgType.image
    imageUrl := some l2Placeholder
    timestamp := s.clock
    scenarioId := some scenario.id }

/-- dashboard.tsx `handleSimulateScenario`. -/
def handleSimulateScenario (s : EngineState) (scenario : Scenario) : EngineState :=
  let userMsg := userMsgOfScenario s scenario
  let s1 := { s with messages := s.messages ++ [userMsg], clock := s.clock + 1 }
  processCoachResponse s1 userMsg (some scenario)

/-- The state persisted by an accepted `handleSend`, before its callback
fires. -/
def sentState (s : EngineState) : EngineState :=
  { s with messages := s.messages ++ [userMsgOfSend s], input := "", clock := s.clock + 1 }

/-- The state persisted by `handleFileUpload`, before its callback fires. -/
def uploadState (s : EngineState) (filename imageData : String) : EngineState :=
  { s with uploadedImage := some imageData
           messages := s.messages ++ [userMsgOfUpload s filename imageData]
           clock := s.clock + 1 }

/-- The state persisted by `handleSimulateScenario`, before its callback
fires. -/
def scenState (s : EngineState) (sc : Scenario) : EngineState :=
  { s with messages := s.messages ++ [userMsgOfScenario s sc], clock := s.clock + 1 }

/-- The coach message built by the firing `processCoachResponse` callback on
state `s` for pending entry `p`: canned scenario text in the captured mode,
or the keyword-matched generic reply. -/
def coachMsgOf (s : EngineState) (p : PendingReply) : Message :=
  { id := toString (s.clock + 1)
    role := Role.coach
    content :=
      match p.scenario with
      | some sc => if p.modeFull then sc.fullResponse else sc.tldrResponse
      | none => generateGenericResponse p.userMsg p.modeFull
    type := MsgType.analysis
    timestamp := s.clock
    mode := some (if p.modeFull then Mode.full else Mode.tldr) }

/-- Firing of the oldest registered `setTimeout` callback of
`processCoachResponse` (the 1200ms bodies fire in registration order):
computes the reply text, appends the coach message and clears the typing
flag. -/
def resolveNextReply (s : EngineState) : EngineState :=
  match s.pending with
  | [] => s
  | p :: rest =>
      { s with messages := s.messages ++ [coachMsgOf s p]
               pending := rest
               isTyping := false
               clock := s.clock + 1 }

/-! ## Persistence gateway (shared drizzle schema + src/server/storage.ts)

The postgres database is an explicit record.  `gen_random_uuid()` / `now()`
defaults are modelled by a `nextId` counter and a monotone `clock`. -/

structure DbSession where
  id : String
  title : String
  createdAt : Nat
  deriving DecidableEq

structure DbMessage where
  id : String
  sessionId : String
  role : String
  content : String
  type : String
  imageUrl : Option String := none
  imageData : Option String := none
  mode : Option String := none
  scenarioId : Option String := none
  timestamp : Nat
  deriving DecidableEq

structure Db where
  sessions : List DbSession
  messages : List DbMessage
  nextId : Nat
  clock : Nat
  deriving DecidableEq

/-- Payload of `storage.createMessage` (the insert shape of the schema). -/
structure InsertMessage where
  sessionId : String
  role : String
  content : String
  type : String
  imageUrl : Option String := none
  imageData : Option String := none
  mode : Option String := none
  scenarioId : Option String := none
  deriving DecidableEq

/-- Timestamp order on stored messages (the `ORDER BY timestamp` key). -/
def tsLe (a b : DbMessage) : Prop := a.timestamp ≤ b.timestamp

instance : DecidableRel tsLe := fun a b => Nat.decLe a.timestamp b.timestamp

instance : IsTotal DbMessage tsLe := ⟨fun a b => Nat.le_total a.timestamp b.timestamp⟩

instance : IsTrans DbMessage tsLe := ⟨fun _ _ _ => Nat.le_trans⟩

/-- Descending creation order on sessions (`ORDER BY created_at DESC`). -/
def createdGe (a b : DbSession) : Prop := b.createdAt ≤ a.createdAt

instance : DecidableRel createdGe := fun a b => Nat.decLe b.createdAt a.createdAt

namespace Server

/-- storage.ts `createSession`. -/
def createSession (title : String) (db : Db) : DbSession × Db :=
  let s : DbSession := { id := toString db.nextId, title := title, createdAt := db.clock }
  (s, { db with sessions := db.sessions ++ [s], nextId := db.nextId + 1, clock := db.clock + 1 })

/-- storage.ts `getSession`. -/
def getSession (id : String) (db : Db) : Option DbSession :=
  db.sessions.find? (fun s => s.id == id)

/-- storage.ts `getAllSessions` (`ORDER BY created_at DESC`). -/
def getAllSessions (db : Db) : List DbSession :=
  db.sessions.insertionSort createdGe

/-- storage.ts `deleteSession`: deletes the session row; the declared
`onDelete: "cascade"` foreign key makes postgres drop every message whose
`session_id` references it. -/
def deleteSession (id : String) (db : Db) : Db :=
  { db with sessions := db.sessions.filter (fun s => s.id != id)
            messages := db.messages.filter (fun m => m.sessionId != id) }

/-- storage.ts `updateSession`. -/
def updateSession (id : String) (title : String) (db : Db) : Db :=
  { db with sessions := db.sessions.map (fun s => if s.id == id then { s with title := title } else s) }

/-- storage.ts `createMessage`: the declared not-null foreign key
`session_id references sessions(id)` makes the insert fail (throw) when the
referenced session does not exist; modelled as `none`. -/
def createMessage (data : InsertMessage) (db : Db) : Option (DbMessage × Db) :=
  if db.sessions.any (fun s => s.id == data.sessionId) then
    let m : DbMessage :=
      { id := toString db.nextId
        sessionId := data.sessionId
        role := data.role
        content := data.content
        type := data.type
        imageUrl := data.imageUrl
        imageData := data.imageData
        mode := data.mode
        scenarioId := data.scenarioId
        timestamp := db.clock }
    some (m, { db with messages := db.messages ++ [m], nextId := db.nextId + 1, clock := db.clock + 1 })
  else none

/-- Contract of `ORDER BY "timestamp"` with no secondary sort key: postgres
may return any permutation of the selected rows that is non-decreasing in
the timestamp; the relative order of equal timestamps is unspecified (the
sort is not guaranteed stable). -/
def ordByTs (input out : List DbMessage) : Prop :=
  out.Perm input ∧ List.Sorted tsLe out

/-- storage.ts `getMessagesBySession` (`WHERE session_id = ? ORDER BY
timestamp`).  The program guarantees only the `ordByTs` contract; this
executable model returns one admissible result of it. -/
def getMessagesBySession (sessionId : String) (db : Db) : List DbMessage :=
  (db.messages.filter (fun m => m.sessionId == sessionId)).insertionSort tsLe

/-- storage.ts `deleteMessage`. -/
def deleteMessage (id : String) (db : Db) : Db :=
  { db with messages := db.messages.filter (fun m => m.id != id) }

/-- storage.ts `deleteMessagesBySession`. -/
def deleteMessagesBySession (sessionId : String) (db : Db) : Db :=
  { db with messages := db.messages.filter (fun m => m.sessionId != sessionId) }

/-- Referential integrity: the `sessionId` of every stored message references an
existing session. -/
def refIntact (db : Db) : Prop :=
  ∀ m ∈ db.messages, ∃ s ∈ db.sessions, s.id = m.sessionId

end Server

/-! ## HTTP route handlers (the routes file carrying the `/api/analyze`
endpoint)

Each handler is a function of its parsed inputs and of the outcome of the
awaited collaborator call: `StorageResult.failure` models the awaited call
throwing (store unreachable / external analysis failure), caught by the
try/catch block of the handler. -/

inductive StorageResult (α : Type) where
  | ok (value : α)
  | failure
  deriving DecidableEq

inductive RouteResponse where
  | okSessions (sessions : List DbSession)
  | okSession (session : DbSession)
  | okSuccess
  | okMessages (messages : List DbMessage)
  | okMessage (message : DbMessage)
  | okUpload (url filename : String)
  | okAnalysis (text : String)
  | badRequest (error : String)
  | notFound (error : String)
  | serverError (error : String)
  deriving DecidableEq

/-- HTTP status code of a response. -/
def RouteResponse.status : RouteResponse → Nat
  | .badRequest _ => 400
  | .notFound _ => 404
  | .serverError _ => 500
  | _ => 200

namespace Routes

/-- Route `GET /api/sessions`: on a storage failure the handler degrades to an
empty list (the in-code comment documents the pending-migration bootstrap
case) instead of propagating the error. -/
def getSessionsRoute (store : StorageResult Db) : RouteResponse :=
  match store with
  | .ok db => .okSessions (Server.getAllSessions db)
  | .failure => .okSessions []

/-- Route `POST /api/sessions`; a missing or empty `title` is falsy. -/
def createSessionRoute (title : Option String) (store : StorageResult Db) :
    RouteResponse × StorageResult Db :=
  match title with
  | none => (.badRequest ("Title is required"), store)
  | some t =>
      if t = "" then (.badRequest ("Title is required"), store)
      else
        match store with
        | .failure => (.serverError ("Failed to create session"), .failure)
        | .ok db =>
            let (s, db1) := Server.createSession t db
            (.okSession s, .ok db1)

/-- Route `GET /api/sessions/:id`. -/
def getSessionRoute (id : String) (store : StorageResult Db) : RouteResponse :=
  match store with
  | .failure => .serverError ("Failed to fetch session")
  | .ok db =>
      match Server.getSession id db with
      | none => .notFound ("Session not found")
      | some s => .okSession s

/-- Route `DELETE /api/sessions/:id`: the handler never checks whether the id
exists; whenever the store is reachable it answers `{success: true}`. -/
def deleteSessionRoute (id : String) (store : StorageResult Db) :
    RouteResponse × StorageResult Db :=
  match store with
  | .failure => (.serverError ("Failed to delete session"), .failure)
  | .ok db => (.okSuccess, .ok (Server.deleteSession id db))

/-- Route `GET /api/sessions/:sessionId/messages`. -/
def getMessagesRoute (sessionId : String) (store : StorageResult Db) : RouteResponse :=
  match store with
  | .failure => .serverError ("Failed to fetch messages")
  | .ok db => .okMessages (Server.getMessagesBySession sessionId db)

/-- Body of `POST /api/sessions/:sessionId/messages`; absent JSON fields are
`none`. -/
structure MsgBody where
  role : Option String := none
  content : Option String := none
  type : Option String := none
  imageUrl : Option String := none
  imageData : Option String := none
  mode : Option String := none
  scenarioId : Option String := none
  deriving DecidableEq

/-- JavaScript falsiness of an optional string field (`!x`): absent or
empty. -/
def falsyStr : Option String → Bool
  | none => true
  | some s => s == ""

/-- Field normalization: `x || null` applied to an optional string field. -/
def orNull (x : Option String) : Option String :=
  if falsyStr x then none else x

/-- Route `POST /api/sessions/:sessionId/messages`. -/
def createMessageRoute (sessionId : String) (body : MsgBody) (store : StorageResult Db) :
    RouteResponse × StorageResult Db :=
  if falsyStr body.role || falsyStr body.content || falsyStr body.type then
    (.badRequest ("Missing required fields"), store)
  else
    match store with
    | .failure => (.serverError ("Failed to create message"), .failure)
    | .ok db =>
        match Server.createMessage
            { sessionId := sessionId
              role := body.role.getD ("")
              content := body.content.getD ("")
              type := body.type.getD ("")
              imageUrl := orNull body.imageUrl
              imageData := orNull body.imageData
              mode := orNull body.mode
              scenarioId := orNull body.scenarioId } db with
        | some (m, db1) => (.okMessage m, .ok db1)
        | none => (.serverError ("Failed to create message"), .ok db)

/-- Route `POST /api/analyze`: validation of the data URL, then the external
vision call, whose failure is caught and answered with a 500. -/
def analyzeRoute (imageData : Option String) (analysis : StorageResult String) :
    RouteResponse :=
  match imageData with
  | none => .badRequest ("Valid image data required")
  | some d =>
      if charListStartsWith d.data ("data:image").data then
        match analysis with
        | .failure => .serverError ("Failed to analyze screenshot")
        | .ok text => .okAnalysis text
      else .badRequest ("Valid image data required")

end Routes

/-! ## Concrete probe states used by witnesses and counterexamples -/

def probeUserMsg : Message :=
  { id := "0", role := Role.user, content := "hi", type := MsgType.text, timestamp := 0 }

def probePending : PendingReply :=
  { userMsg := probeUserMsg, scenario := none, modeFull := false }

/-- An engine state that is `AWAITING_REPLY`: the typing indicator is on and
one coach reply is pending, while the input box holds fresh text. -/
def busyState : EngineState :=
  { sessions := []
    currentSessionId := "s1"
    messages := [probeUserMsg]
    input := "hello"
    isFullReview := false
    isTyping := true
    uploadedImage := none
    pending := [probePending]
    clock := 5 }

/-- An idle engine state in tldr mode. -/
def idleTldrState : EngineState :=
  { sessions := []
    currentSessionId := "s1"
    messages := []
    input := "what do you see"
    isFullReview := false
    isTyping := false
    uploadedImage := none
    pending := []
    clock := 10 }

/-- An idle engine state in full-review mode. -/
def idleFullState : EngineState :=
  { idleTldrState with isFullReview := true }

def buyerProbeMsg : Message :=
  { id := "p1", role := Role.user, content := "I think buyers are strong",
    type := MsgType.text, timestamp := 0 }

def fallbackProbeMsg : Message :=
  { id := "p2", role := Role.user, content := "What is the tape doing",
    type := MsgType.text, timestamp := 0 }

def emptyDb : Db := { sessions := [], messages := [], nextId := 0, clock := 0 }

def dbSess1 : DbSession := { id := "s1", title := "First", createdAt := 0 }

def dbMsg1 : DbMessage :=
  { id := "m1", sessionId := "s1", role := "user", content := "hi there", type := "text",
    timestamp := 1 }

/-- A provisioned store with one session and one message. -/
def seedDb : Db := { sessions := [dbSess1], messages := [dbMsg1], nextId := 2, clock := 2 }

def validBody : Routes.MsgBody :=
  { role := some ("user"), content := some ("hello coach"), type := some ("text") }

def emptyContentBody : Routes.MsgBody :=
  { role := some ("user"), content := some (""), type := some ("text") }

def tieMsgA : DbMessage :=
  { id := "mA", sessionId := "s1", role := "user", content := "first question", type := "text",
    timestamp := 7 }

def tieMsgB : DbMessage :=
  { id := "mB", sessionId := "s1", role := "coach", content := "first answer", type := "analysis",
    timestamp := 7 }

/-- A provisioned store holding two messages with equal timestamps, inserted
in the order A then B. -/
def tieDb : Db :=
  { sessions := [dbSess1], messages := [tieMsgA, tieMsgB], nextId := 3, clock := 8 }

/-! ## Helper lemmas -/

/-- Cascade: after `deleteSession id`, no stored message references `id`. -/
theorem deleteSession_filter_nil (db : Db) (id : String) :
    (Server.deleteSession id db).messages.filter (fun m => m.sessionId == id) = [] := by
  simp only [Server.deleteSession, List.filter_filter]
  refine List.filter_eq_nil_iff.mpr (fun m _ => ?_)
  simp [bne]

/-! ## Claim theorems -/

/-- Firing a callback when the queue head is known. -/
theorem resolveNextReply_cons {s : EngineState} {p : PendingReply} {rest : List PendingReply}
    (h : s.pending = p :: rest) :
    resolveNextReply s =
      { s with messages := s.messages ++ [coachMsgOf s p]
               pending := rest
               isTyping := false
               clock := s.clock + 1 } := by
  rw [resolveNextReply.eq_def, h]

/-- Unfolding an accepted `handleSend`. -/
theorem handleSend_not_blank {s : EngineState} (h : ¬ strTrim s.input = "") :
    handleSend s = processCoachResponse (sentState s) (userMsgOfSend s) none := by
  rw [handleSend, if_neg h]
  rfl

/-- Unfolding `handleFileUpload`. -/
theorem handleFileUpload_eq (s : EngineState) (filename imageData : String) :
    handleFileUpload s filename imageData = processCoachResponse
      (uploadState s filename imageData) (userMsgOfUpload s filename imageData) none := rfl

/-- Unfolding `handleSimulateScenario`. -/
theorem handleSimulateScenario_eq (s : EngineState) (sc : Scenario) :
    handleSimulateScenario s sc = processCoachResponse
      (scenState s sc) (userMsgOfScenario s sc) (some sc) := rfl

/-- A scheduled reply on a previously idle state fires immediately after:
the callback appends the coach message for the captured closure. -/
theorem resolve_after_schedule (s1 : EngineState) (u : Message) (sc : Option Scenario)
    (hp : s1.pending = []) :
    resolveNextReply (processCoachResponse s1 u sc) =
      { s1 with isTyping := false
                messages := s1.messages ++
                  [coachMsgOf s1 { userMsg := u, scenario := sc, modeFull := s1.isFullReview }]
                pending := []
                clock := s1.clock + 1 } := by
  have hpend : (processCoachResponse s1 u sc).pending
      = { userMsg := u, scenario := sc, modeFull := s1.isFullReview } :: [] := by
    simp [processCoachResponse, hp]
  rw [resolveNextReply_cons hpend]
  rfl

/-- C1 counterexample: in a state already awaiting a coach reply
(`isTyping = true`, one registered callback), `handleSend` on fresh nonblank
input is neither rejected nor queued behind the pending turn: it appends the
second user message immediately and registers a second callback, so two
coach replies are outstanding at once for the session. -/
theorem handleSend_processes_while_awaiting_reply :
    busyState.isTyping = true
  ∧ busyState.pending.length = 1
  ∧ strTrim busyState.input ≠ ""
  ∧ (handleSend busyState).messages.length = busyState.messages.length + 1
  ∧ (handleSend busyState).pending.length = 2 := by
  exact ⟨rfl, rfl, by decide, by decide, by decide⟩

/-- C1 amended: `handleSend` rejects only blank input — a second `submitText`
while a reply is pending is accepted and schedules a second coach reply, so
two replies can be outstanding at once; registered callbacks fire in FIFO
order, so the coach replies are still appended in submission order. -/
theorem handleSend_accepts_second_submit_fifo :
    (∀ s : EngineState, strTrim s.input ≠ "" →
        (handleSend s).messages = s.messages ++ [userMsgOfSend s] ∧
        (handleSend s).pending = s.pending ++
          [{ userMsg := userMsgOfSend s, scenario := none, modeFull := s.isFullReview }] ∧
        (handleSend s).isTyping = true)
  ∧ (∀ s : EngineState, strTrim s.input = "" → handleSend s = s)
  ∧ (∀ (s : EngineState) (p : PendingReply) (rest : List PendingReply),
        s.pending = p :: rest →
        (resolveNextReply s).messages = s.messages ++ [coachMsgOf s p] ∧
        (resolveNextReply s).pending = rest ∧
        (coachMsgOf s p).role = Role.coach) := by
  refine ⟨?_, ?_, ?_⟩
  · intro s h
    rw [handleSend_not_blank h]
    exact ⟨rfl, rfl, rfl⟩
  · intro s h
    rw [handleSend, if_pos h]
  · intro s p rest h
    rw [resolveNextReply_cons h]
    exact ⟨rfl, rfl, rfl⟩

/-- C1 amended witness: the busy state accepts the second submission and the
pending callback fires in FIFO order. -/
theorem handleSend_accepts_second_submit_fifo_witness :
    (handleSend busyState).pending = busyState.pending ++
      [{ userMsg := userMsgOfSend busyState, scenario := none,
         modeFull := busyState.isFullReview }]
  ∧ (resolveNextReply busyState).pending = [] :=
  ⟨(handleSend_accepts_second_submit_fifo.1 busyState (by decide)).2.1,
   (handleSend_accepts_second_submit_fifo.2.2 busyState probePending [] rfl).2.1⟩

/-- C2: every accepted `submitText` / `submitImage` / `submitScenario` call
appends exactly one user message, and its successful resolution appends
exactly one coach message right after it — the final log is the old log
plus `[user, coach]`, with nothing else added or removed. -/
theorem submit_appends_exactly_user_then_coach :
    (∀ s : EngineState, s.pending = [] → strTrim s.input ≠ "" →
        ∃ u c, (resolveNextReply (handleSend s)).messages = s.messages ++ [u, c]
          ∧ u.role = Role.user ∧ u.type = MsgType.text ∧ u.content = s.input
          ∧ c.role = Role.coach ∧ c.type = MsgType.analysis
          ∧ (resolveNextReply (handleSend s)).pending = [])
  ∧ (∀ (s : EngineState) (filename imageData : String), s.pending = [] →
        ∃ u c, (resolveNextReply (handleFileUpload s filename imageData)).messages
            = s.messages ++ [u, c]
          ∧ u.role = Role.user ∧ u.type = MsgType.image
          ∧ c.role = Role.coach ∧ c.type = MsgType.analysis
          ∧ (resolveNextReply (handleFileUpload s filename imageData)).pending = [])
  ∧ (∀ (s : EngineState) (sc : Scenario), s.pending = [] →
        ∃ u c, (resolveNextReply (handleSimulateScenario s sc)).messages
            = s.messages ++ [u, c]
          ∧ u.role = Role.user ∧ u.type = MsgType.image ∧ u.scenarioId = some sc.id
          ∧ c.role = Role.coach ∧ c.type = MsgType.analysis
          ∧ (resolveNextReply (handleSimulateScenario s sc)).pending = []) := by
  refine ⟨?_, ?_, ?_⟩
  · intro s hp hi
    rw [handleSend_not_blank hi, resolve_after_schedule _ _ _ (by exact hp)]
    refine ⟨userMsgOfSend s,
      coachMsgOf (sentState s)
        { userMsg := userMsgOfSend s, scenario := none,
          modeFull := (sentState s).isFullReview },
      ?_, rfl, rfl, rfl, rfl, rfl, rfl⟩
    simp [sentState]
  · intro s filename imageData hp
    rw [handleFileUpload_eq, resolve_after_schedule _ _ _ (by exact hp)]
    refine ⟨userMsgOfUpload s filename imageData,
      coachMsgOf (uploadState s filename imageData)
        { userMsg := userMsgOfUpload s filename imageData, scenario := none,
          modeFull := (uploadState s filename imageData).isFullReview },
      ?_, rfl, rfl, rfl, rfl, rfl⟩
    simp [uploadState]
  · intro s sc hp
    rw [handleSimulateScenario_eq, resolve_after_schedule _ _ _ (by exact hp)]
    refine ⟨userMsgOfScenario s sc,
      coachMsgOf (scenState s sc)
        { userMsg := userMsgOfScenario s sc, scenario := some sc,
          modeFull := (scenState s sc).isFullReview },
      ?_, rfl, rfl, rfl, rfl, rfl, rfl⟩
    simp [scenState]

/-- C2 witness: a concrete idle state runs one text turn and one scenario
turn, each appending exactly `[user, coach]`. -/
theorem submit_appends_exactly_user_then_coach_witness :
    (∃ u c, (resolveNextReply (handleSend idleTldrState)).messages
        = idleTldrState.messages ++ [u, c]
      ∧ u.role = Role.user ∧ u.type = MsgType.text ∧ u.content = idleTldrState.input
      ∧ c.role = Role.coach ∧ c.type = MsgType.analysis
      ∧ (resolveNextReply (handleSend idleTldrState)).pending = [])
  ∧ (∃ u c, (resolveNextReply (handleSimulateScenario idleTldrState bearTrapScenario)).messages
        = idleTldrState.messages ++ [u, c]
      ∧ u.role = Role.user ∧ u.type = MsgType.image ∧ u.scenarioId = some bearTrapScenario.id
      ∧ c.role = Role.coach ∧ c.type = MsgType.analysis
      ∧ (resolveNextReply (handleSimulateScenario idleTldrState bearTrapScenario)).pending = []) :=
  ⟨submit_appends_exactly_user_then_coach.1 idleTldrState rfl (by decide),
   submit_appends_exactly_user_then_coach.2.2 idleTldrState bearTrapScenario rfl⟩

/-- C3: submitting the `bull_flag` scenario resolves, in tldr mode, to a
coach message whose content is exactly the `tldrResponse` of the scenario with
`mode = tldr` and `type = analysis`, and in full mode to exactly its
`fullResponse` with `mode = full`; the reply text is a fixed string of the
static scenario table, identical across all calls. -/
theorem scenario_bull_flag_resolution :
    (SCENARIOS.find? (fun sc => sc.id == "bull_flag") = some bullFlagScenario)
  ∧ (∀ s : EngineState, s.pending = [] → s.isFullReview = false →
        ∃ u c, (resolveNextReply (handleSimulateScenario s bullFlagScenario)).messages
            = s.messages ++ [u, c]
          ∧ c.role = Role.coach ∧ c.type = MsgType.analysis
          ∧ c.mode = some Mode.tldr ∧ c.content = bullFlagScenario.tldrResponse)
  ∧ (∀ s : EngineState, s.pending = [] → s.isFullReview = true →
        ∃ u c, (resolveNextReply (handleSimulateScenario s bullFlagScenario)).messages
            = s.messages ++ [u, c]
          ∧ c.role = Role.coach ∧ c.type = MsgType.analysis
          ∧ c.mode = some Mode.full ∧ c.content = bullFlagScenario.fullResponse) := by
  refine ⟨rfl, ?_, ?_⟩
  · intro s hp hf
    rw [handleSimulateScenario_eq, resolve_after_schedule _ _ _ (by exact hp)]
    refine ⟨userMsgOfScenario s bullFlagScenario,
      coachMsgOf (scenState s bullFlagScenario)
        { userMsg := userMsgOfScenario s bullFlagScenario, scenario := some bullFlagScenario,
          modeFull := (scenState s bullFlagScenario).isFullReview },
      ?_, rfl, rfl, ?_, ?_⟩
    · simp [scenState]
    · simp [coachMsgOf, scenState, hf]
    · simp [coachMsgOf, scenState, hf]
  · intro s hp hf
    rw [handleSimulateScenario_eq, resolve_after_schedule _ _ _ (by exact hp)]
    refine ⟨userMsgOfScenario s bullFlagScenario,
      coachMsgOf (scenState s bullFlagScenario)
        { userMsg := userMsgOfScenario s bullFlagScenario, scenario := some bullFlagScenario,
          modeFull := (scenState s bullFlagScenario).isFullReview },
      ?_, rfl, rfl, ?_, ?_⟩
    · simp [scenState]
    · simp [coachMsgOf, scenState, hf]
    · simp [coachMsgOf, scenState, hf]

/-- C3 witness: concrete idle states in each mode. -/
theorem scenario_bull_flag_resolution_witness :
    (∃ u c, (resolveNextReply (handleSimulateScenario idleTldrState bullFlagScenario)).messages
        = idleTldrState.messages ++ [u, c]
      ∧ c.role = Role.coach ∧ c.type = MsgType.analysis
      ∧ c.mode = some Mode.tldr ∧ c.content = bullFlagScenario.tldrResponse)
  ∧ (∃ u c, (resolveNextReply (handleSimulateScenario idleFullState bullFlagScenario)).messages
        = idleFullState.messages ++ [u, c]
      ∧ c.role = Role.coach ∧ c.type = MsgType.analysis
      ∧ c.mode = some Mode.full ∧ c.content = bullFlagScenario.fullResponse) :=
  ⟨scenario_bull_flag_resolution.2.1 idleTldrState rfl rfl,
   scenario_bull_flag_resolution.2.2 idleFullState rfl rfl⟩

/-- C4: the keyword matcher is deterministic and first-match-wins over the
lower-cased input: any input mentioning buyer/long gets the buyer/long
template regardless of mode; seller/short without buyer/long gets the
seller/short template; input containing none of the trigger keywords
(buyer, long, seller, short, wait, patience) gets the generic fallback; and
the mode flag never affects the chosen template. -/
theorem generateGenericResponse_keyword_rules :
    (∀ (msg : Message) (fullMode : Bool),
        (strIncludes (strToLower msg.content) ("buyer") = true ∨
         strIncludes (strToLower msg.content) ("long") = true) →
        generateGenericResponse msg fullMode = buyerLongTemplate)
  ∧ (∀ (msg : Message) (fullMode : Bool),
        (strIncludes (strToLower msg.content) ("seller") = true ∨
         strIncludes (strToLower msg.content) ("short") = true) →
        strIncludes (strToLower msg.content) ("buyer") = false →
        strIncludes (strToLower msg.content) ("long") = false →
        generateGenericResponse msg fullMode = sellerShortTemplate)
  ∧ (∀ (msg : Message) (fullMode : Bool),
        strIncludes (strToLower msg.content) ("buyer") = false →
        strIncludes (strToLower msg.content) ("long") = false →
        strIncludes (strToLower msg.content) ("seller") = false →
        strIncludes (strToLower msg.content) ("short") = false →
        strIncludes (strToLower msg.content) ("wait") = false →
        strIncludes (strToLower msg.content) ("patience") = false →
        generateGenericResponse msg fullMode = fallbackTemplate)
  ∧ (∀ (msg : Message) (m1 m2 : Bool),
        generateGenericResponse msg m1 = generateGenericResponse msg m2) := by
  refine ⟨?_, ?_, ?_, ?_⟩
  · intro msg fullMode h
    rcases h with h | h <;> simp [generateGenericResponse, h]
  · intro msg fullMode h hb hl
    rcases h with h | h <;> simp [generateGenericResponse, h, hb, hl]
  · intro msg fullMode h1 h2 h3 h4 h5 h6
    simp [generateGenericResponse, h1, h2, h3, h4, h5, h6]
  · intro msg m1 m2
    rfl

/-- C4 witness: the canonical probe inputs. -/
theorem generateGenericResponse_keyword_rules_witness :
    generateGenericResponse buyerProbeMsg false = buyerLongTemplate
  ∧ generateGenericResponse buyerProbeMsg true = buyerLongTemplate
  ∧ generateGenericResponse fallbackProbeMsg false = fallbackTemplate :=
  ⟨generateGenericResponse_keyword_rules.1 buyerProbeMsg false (Or.inl (by decide)),
   generateGenericResponse_keyword_rules.1 buyerProbeMsg true (Or.inl (by decide)),
   generateGenericResponse_keyword_rules.2.2.1 fallbackProbeMsg false (by decide) (by decide)
     (by decide) (by decide) (by decide) (by decide)⟩

/-- C6 counterexample: with two equal-timestamp messages stored in order A
then B, the reversed list is also an admissible result of the `ORDER BY`
contract of `getMessagesBySession` (a timestamp-sorted permutation of the
selected rows), so the program does not guarantee the claimed
insertion-order tie-break. -/
theorem listMessages_tie_order_unspecified :
    Server.ordByTs (tieDb.messages.filter (fun m => m.sessionId == "s1")) [tieMsgB, tieMsgA]
  ∧ [tieMsgB, tieMsgA] ≠ tieDb.messages.filter (fun m => m.sessionId == "s1") := by
  refine ⟨⟨?_, ?_⟩, ?_⟩
  · decide
  · decide
  · decide

/-- C6 amended: for every session id, `listMessages` returns a permutation
of exactly the stored messages whose `sessionId` equals the requested id,
sorted non-decreasingly by timestamp — an admissible result of the
`ORDER BY` contract; the order among equal timestamps is unspecified. -/
theorem getMessagesBySession_sorted_permutation (db : Db) (sid : String) :
    List.Sorted tsLe (Server.getMessagesBySession sid db)
  ∧ (Server.getMessagesBySession sid db).Perm
      (db.messages.filter (fun m => m.sessionId == sid))
  ∧ Server.ordByTs (db.messages.filter (fun m => m.sessionId == sid))
      (Server.getMessagesBySession sid db) :=
  ⟨List.sorted_insertionSort tsLe _,
   List.perm_insertionSort tsLe _,
   List.perm_insertionSort tsLe _,
   List.sorted_insertionSort tsLe _⟩

/-- C5: deleting a session cascades to every message referencing it —
afterwards no stored message carries that `sessionId` and `listMessages`
on that id is empty — and referential integrity (every stored message
references an existing session) is preserved by `deleteSession`,
`createMessage` and `createSession`. -/
theorem deleteSession_cascade (db : Db) (id : String) :
    ((Server.deleteSession id db).messages.filter (fun m => m.sessionId == id) = [])
  ∧ (Server.getMessagesBySession id (Server.deleteSession id db) = [])
  ∧ (Server.refIntact db → Server.refIntact (Server.deleteSession id db))
  ∧ (∀ data m db1, Server.refIntact db →
        Server.createMessage data db = some (m, db1) → Server.refIntact db1)
  ∧ (∀ title, Server.refIntact db → Server.refIntact (Server.createSession title db).2) := by
  refine ⟨deleteSession_filter_nil db id, ?_, ?_, ?_, ?_⟩
  · unfold Server.getMessagesBySession
    rw [deleteSession_filter_nil db id]
    rfl
  · intro h m hm
    rw [Server.deleteSession] at hm
    simp only [List.mem_filter] at hm
    obtain ⟨s, hs, hsid⟩ := h m hm.1
    refine ⟨s, ?_, hsid⟩
    simp only [Server.deleteSession, List.mem_filter]
    refine ⟨hs, ?_⟩
    have : m.sessionId ≠ id := by
      have := hm.2
      simp [bne] at this
      exact this
    simp [bne, hsid, this]
  · intro data m db1 h heq
    rw [Server.createMessage] at heq
    by_cases hany : db.sessions.any (fun s => s.id == data.sessionId)
    · rw [if_pos hany] at heq
      obtain ⟨s, hs, hsid⟩ := List.any_eq_true.mp hany
      injection heq with heq'
      injection heq' with _ hdb
      subst hdb
      intro m2 hm2
      simp only [List.mem_append, List.mem_singleton] at hm2
      rcases hm2 with hm2 | hm2
      · exact h m2 hm2
      · subst hm2
        exact ⟨s, hs, by simpa using hsid⟩
    · rw [if_neg hany] at heq
      exact absurd heq (by simp)
  · intro title h m hm
    obtain ⟨s, hs, hsid⟩ := h m hm
    exact ⟨s, by simp [Server.createSession, hs], hsid⟩

/-- C5 witness: a concrete provisioned store with one session and one
message. -/
theorem deleteSession_cascade_witness :
    (Server.deleteSession ("s1") seedDb).messages.filter (fun m => m.sessionId == "s1") = []
  ∧ Server.getMessagesBySession ("s1") (Server.deleteSession ("s1") seedDb) = []
  ∧ Server.refIntact (Server.deleteSession ("s1") seedDb) :=
  ⟨(deleteSession_cascade seedDb ("s1")).1,
   (deleteSession_cascade seedDb ("s1")).2.1,
   (deleteSession_cascade seedDb ("s1")).2.2.1 (by unfold Server.refIntact; decide)⟩

/-- C9 counterexample: the DELETE route reports `{success: true}` even for
an id that is not present in the store, contradicting the claimed
`success | NotFound` contract. -/
theorem deleteSessionRoute_success_on_missing_id :
    Server.getSession ("nope") emptyDb = none
  ∧ (Routes.deleteSessionRoute ("nope") (.ok emptyDb)).1 = RouteResponse.okSuccess
  ∧ (Routes.deleteSessionRoute ("nope") (.ok emptyDb)).1.status = 200 :=
  ⟨rfl, rfl, rfl⟩

/-- C9 amended: whenever the store is reachable, the DELETE route answers
success whether or not the session exists (deleting zero rows is success);
it never produces NotFound, and the cascade still removes every message of
the deleted id. -/
theorem deleteSessionRoute_always_success (id : String) (db : Db) :
    (Routes.deleteSessionRoute id (.ok db)).1 = RouteResponse.okSuccess
  ∧ (Routes.deleteSessionRoute id (.ok db)).2 = .ok (Server.deleteSession id db)
  ∧ ((Server.deleteSession id db).messages.filter (fun m => m.sessionId == id) = [])
  ∧ ∀ e : String, (Routes.deleteSessionRoute id (.ok db)).1 ≠ RouteResponse.notFound e :=
  ⟨rfl, rfl, deleteSession_filter_nil db id, fun e h => RouteResponse.noConfusion h⟩

/-- C10: the message-creation route treats an empty-string (or absent)
`content`, `role` or `type` as a missing required field: it answers 400 with
an error body and leaves the store untouched, so a message with empty
content can never be created through the API. -/
theorem createMessageRoute_rejects_empty_fields :
    (∀ (sid : String) (body : Routes.MsgBody) (store : StorageResult Db),
        (body.content = some ("") ∨ body.content = none ∨
         body.role = some ("") ∨ body.role = none ∨
         body.type = some ("") ∨ body.type = none) →
        Routes.createMessageRoute sid body store
          = (.badRequest ("Missing required fields"), store))
  ∧ (∀ (sid : String) (body : Routes.MsgBody) (store : StorageResult Db) m store2,
        Routes.createMessageRoute sid body store = (.okMessage m, store2) →
        m.content ≠ "") := by
  constructor
  · intro sid body store h
    rcases h with h | h | h | h | h | h <;>
      simp [Routes.createMessageRoute, Routes.falsyStr, h]
  · intro sid body store m store2 heq
    rw [Routes.createMessageRoute.eq_def] at heq
    by_cases hv : Routes.falsyStr body.role || Routes.falsyStr body.content
        || Routes.falsyStr body.type
    · rw [if_pos hv] at heq
      exact absurd heq (by simp)
    · rw [if_neg hv] at heq
      have hc : Routes.falsyStr body.content = false := by
        rcases Bool.or_eq_false_iff.mp (Bool.eq_false_iff.mpr hv) with ⟨h1, _⟩
        exact (Bool.or_eq_false_iff.mp h1).2
      obtain ⟨cs, hcs⟩ : ∃ cs, body.content = some cs := by
        cases hbc : body.content with
        | none => rw [hbc] at hc; simp [Routes.falsyStr] at hc
        | some cs => exact ⟨cs, rfl⟩
      have hcs' : cs ≠ "" := by
        rw [hcs] at hc
        simpa [Routes.falsyStr] using hc
      cases store with
      | failure => exact absurd heq (by simp)
      | ok db =>
          simp only at heq
          rw [Server.createMessage] at heq
          by_cases hany : db.sessions.any (fun s => s.id == sid)
          · rw [if_pos hany] at heq
            simp only [Prod.mk.injEq] at heq
            have hm : m = _ := (RouteResponse.okMessage.inj heq.1).symm
            rw [hm]
            simpa [hcs] using hcs'
          · rw [if_neg hany] at heq
            exact absurd heq (by simp)

/-- C10 witness: a concrete empty-content body is rejected with 400 and the
store is unchanged; a concrete accepted body yields a message with nonempty
content. -/
theorem createMessageRoute_rejects_empty_fields_witness :
    Routes.createMessageRoute ("s1") emptyContentBody (.ok seedDb)
      = (.badRequest ("Missing required fields"), .ok seedDb)
  ∧ ∀ m store2,
      Routes.createMessageRoute ("s1") validBody (.ok seedDb) = (.okMessage m, store2) →
      m.content ≠ "" :=
  ⟨createMessageRoute_rejects_empty_fields.1 ("s1") emptyContentBody (.ok seedDb)
      (Or.inl rfl),
   fun m store2 h =>
     createMessageRoute_rejects_empty_fields.2 ("s1") validBody (.ok seedDb) m store2 h⟩

/-- C8: every collaborator failure bubbles to the request boundary as a 500
error response, with the single exception of session listing, which
degrades to an empty 200 list when the store fails. -/
theorem error_propagation_policy :
    (Routes.getSessionsRoute .failure = .okSessions []
      ∧ (Routes.getSessionsRoute .failure).status = 200)
  ∧ (∀ title : String, title ≠ "" →
      (Routes.createSessionRoute (some title) .failure).1
        = .serverError ("Failed to create session"))
  ∧ (∀ id : String,
      Routes.getSessionRoute id .failure = .serverError ("Failed to fetch session"))
  ∧ (∀ id : String,
      (Routes.deleteSessionRoute id .failure).1 = .serverError ("Failed to delete session"))
  ∧ (∀ sid : String,
      Routes.getMessagesRoute sid .failure = .serverError ("Failed to fetch messages"))
  ∧ (∀ (sid : String) (body : Routes.MsgBody),
      Routes.falsyStr body.role = false → Routes.falsyStr body.content = false →
      Routes.falsyStr body.type = false →
      (Routes.createMessageRoute sid body .failure).1
        = .serverError ("Failed to create message"))
  ∧ (∀ d : String, charListStartsWith d.data ("data:image").data = true →
      Routes.analyzeRoute (some d) .failure = .serverError ("Failed to analyze screenshot")) := by
  refine ⟨⟨rfl, rfl⟩, ?_, fun _ => rfl, fun _ => rfl, fun _ => rfl, ?_, ?_⟩
  · intro title h
    rw [Routes.createSessionRoute, if_neg h]
  · intro sid body h1 h2 h3
    simp [Routes.createMessageRoute, h1, h2, h3]
  · intro d h
    rw [Routes.analyzeRoute]
    simp only [h, if_true]

/-- C8 witness: concrete instances of each branch of the propagation
policy. -/
theorem error_propagation_policy_witness :
    (Routes.createSessionRoute (some ("My session")) .failure).1
      = .serverError ("Failed to create session")
  ∧ (Routes.createMessageRoute ("s1") validBody .failure).1
      = .serverError ("Failed to create message")
  ∧ Routes.analyzeRoute (some ("data:image/png;base64,AAAA")) .failure
      = .serverError ("Failed to analyze screenshot") :=
  ⟨error_propagation_policy.2.1 ("My session") (by decide),
   error_propagation_policy.2.2.2.2.2.1 ("s1") validBody rfl rfl rfl,
   error_propagation_policy.2.2.2.2.2.2 ("data:image/png;base64,AAAA") (by decide)⟩

end L2
